import Mathlib

/-
Verification of `combiner.py`, the Neos texture combiner.

The shallow embedding below models the image data handled by the script
(single-channel 8-bit PIL "L" images and four-channel RGBA images), the PIL
primitives the script calls (`Image.new`, `Image.merge`, `ImageOps.grayscale`,
`ImageOps.invert`, `Image.open` via a filesystem map), and the two functions of
the script itself: `combine` and `process`.  Exceptional exits of the Python
code (uncaught exceptions) are modeled explicitly: `Option`/`Except` for
PIL calls that raise, and a `crash` outcome for exceptions `process` does not
catch.
-/

/-- An 8-bit single-channel image in PIL "L" mode: a `width` x `height` grid
of intensity values in `[0, 255]`.  The pixel grid is a total function on
coordinates; `pix_lt` records the 8-bit range of every stored value. -/
structure Channel where
  width : Nat
  height : Nat
  pix : Nat → Nat → Nat
  pix_lt : ∀ x y, pix x y < 256

/-- A four-channel RGBA image: each pixel is an (R, G, B, A) tuple. -/
structure RGBAImage where
  width : Nat
  height : Nat
  pix : Nat → Nat → Nat × Nat × Nat × Nat

namespace Image

/-- PIL `Image.new("L", (w, h))`: a new grayscale image, filled with the
default fill value 0. -/
def new (w h : Nat) : Channel :=
  { width := w, height := h, pix := fun _ _ => 0,
    pix_lt := fun _ _ => by show 0 < 256; decide }

/-- PIL `Image.merge("RGBA", [r, g, b, a])`: merges four L-mode bands into one
RGBA image.  PIL raises `ValueError` unless all bands share one size; that
exceptional exit is modeled as `none`. -/
def merge (r g b a : Channel) : Option RGBAImage :=
  if r.width = g.width ∧ r.height = g.height ∧
     r.width = b.width ∧ r.height = b.height ∧
     r.width = a.width ∧ r.height = a.height then
    some { width := r.width, height := r.height,
           pix := fun x y => (r.pix x y, g.pix x y, b.pix x y, a.pix x y) }
  else none

/-- PIL `img.getchannel("L")` on an L-mode image: the only band of an L-mode image is the
image itself. -/
def getchannelL (c : Channel) : Channel := c

end Image

namespace ImageOps

/-- PIL `ImageOps.grayscale` converts an image to L mode.  All images in this
development are L-mode channels already (the script treats every input as
grayscale), so the conversion is the identity. -/
def grayscale (c : Channel) : Channel := c

/-- PIL `ImageOps.invert` on an L-mode image: every pixel `v` becomes `255 - v`. -/
def invert (c : Channel) : Channel :=
  { width := c.width, height := c.height,
    pix := fun x y => 255 - c.pix x y,
    pix_lt := fun x y => by show 255 - c.pix x y < 256; have := c.pix_lt x y; omega }

end ImageOps

/-- `combine` from `combiner.py` (lines 49-64): extracts the grayscale band of
each input, inverts the smoothness band when `is_rough`, and merges
`[metallic, zero, zero, smoothness]` into an RGBA image.  `Image.merge`
raising `ValueError` on a band-size mismatch is modeled as `none`; the
exception would propagate out of `combine` uncaught. -/
def combine (metallic_img smoothness_img : Channel) (is_rough : Bool) :
    Option RGBAImage :=
  let metallic_gray := Image.getchannelL (ImageOps.grayscale metallic_img)
  let smoothness_gray := Image.getchannelL (ImageOps.grayscale smoothness_img)
  let smoothness_gray := if is_rough then ImageOps.invert smoothness_gray else smoothness_gray
  let zero := Image.new metallic_gray.width metallic_gray.height
  Image.merge metallic_gray zero zero smoothness_gray

/-- C1: for equal-sized grayscale images `M` and `S` and any `is_rough`,
`combine M S is_rough` succeeds and produces an RGBA image of the same
dimensions whose every pixel is `(M[x,y], 0, 0, A)` with `A = S[x,y]` when
`is_rough` is false and `A = 255 - S[x,y]` when `is_rough` is true. -/
theorem combine_spec (m s : Channel) (r : Bool)
    (hw : m.width = s.width) (hh : m.height = s.height) :
    ∃ img, combine m s r = some img ∧ img.width = m.width ∧ img.height = m.height ∧
      ∀ x y, img.pix x y =
        (m.pix x y, 0, 0, if r then 255 - s.pix x y else s.pix x y) := by
  cases r <;>
    simp [combine, Image.getchannelL, ImageOps.grayscale, ImageOps.invert,
      Image.merge, Image.new, hw, hh]

/-- Witness for C1 at a concrete input. -/
theorem combine_spec_witness :
    ∃ img, combine (Image.new 2 2) (Image.new 2 2) true = some img ∧
      img.width = (Image.new 2 2).width ∧ img.height = (Image.new 2 2).height ∧
      ∀ x y, img.pix x y =
        ((Image.new 2 2).pix x y, 0, 0,
          if true then 255 - (Image.new 2 2).pix x y else (Image.new 2 2).pix x y) :=
  combine_spec (Image.new 2 2) (Image.new 2 2) true rfl rfl

/-- Python `str.strip()`: the string with leading and trailing whitespace
removed. -/
def String.strip (s : String) : String :=
  String.mk (((s.data.dropWhile Char.isWhitespace).reverse.dropWhile
    Char.isWhitespace).reverse)

/-- What a path holds in the modeled filesystem: either a file that decodes
as an image, or a file whose content is not decodable as an image. -/
inductive FileContent where
  | image (img : Channel)
  | notImage

/-- The filesystem seen by the script: an association list from paths to file
contents.  A path absent from the list does not exist. -/
def FS : Type := List (String × FileContent)

/-- The two exceptions of `Image.open` that `process` catches:
`FileNotFoundError` and `PIL.UnidentifiedImageError`.  The path argument
records which open raised (it fixes the report order when both files are
bad); it is how the exception is attributed, not what the exception object
exposes: `FileNotFoundError` from the builtin open carries the path in its
`filename` attribute, while PIL constructs `UnidentifiedImageError` with a
single message argument, which leaves the `filename` attribute of the
underlying `OSError` as `None`. -/
inductive OpenError where
  | fileNotFound (path : String)
  | unidentifiedImage (path : String)

/-- PIL `Image.open(path)`: raises `FileNotFoundError` when the path does not
exist and `UnidentifiedImageError` when the content does not decode as an
image; otherwise yields the decoded image. -/
def openImage (fs : FS) (path : String) : Except OpenError Channel :=
  match List.lookup path fs with
  | none => .error (.fileNotFound path)
  | some .notImage => .error (.unidentifiedImage path)
  | some (.image img) => .ok img

/-- `Images.open` from `combiner.py` (lines 29-36): opens the metallic file
when its path is non-empty, then the smoothness file when its path is
non-empty; a raised exception propagates (so a metallic failure is reported
before the smoothness file is ever opened).  An empty path leaves the
corresponding image `None`. -/
def openImages (fs : FS) (metallic_file smoothness_file : String) :
    Except OpenError (Option Channel × Option Channel) :=
  match (if metallic_file = "" then .ok none
         else Except.map some (openImage fs metallic_file) :
         Except OpenError (Option Channel)) with
  | .error e => .error e
  | .ok metallic_img =>
    match (if smoothness_file = "" then .ok none
           else Except.map some (openImage fs smoothness_file) :
           Except OpenError (Option Channel)) with
    | .error e => .error e
    | .ok smoothness_img => .ok (metallic_img, smoothness_img)

/-- The placeholder-fill step of `process` (lines 106-110): a missing metallic
image becomes `Image.new("L", smoothness_img.size)` (all zero) and a missing
smoothness image becomes `ImageOps.invert(Image.new("L", metallic_img.size))`
(all 255).  When both images are missing the Python code dereferences
`smoothness_img.size` on `None` and raises `AttributeError`; that exit is
modeled as `none`. -/
def fillMissing (metallic_img smoothness_img : Option Channel) :
    Option (Channel × Channel) :=
  match metallic_img, smoothness_img with
  | none, none => none
  | none, some s => some (Image.new s.width s.height, s)
  | some m, none => some (m, ImageOps.invert (Image.new m.width m.height))
  | some m, some s => some (m, s)

/-- The `values` mapping `process` receives from the form: the three text
fields (`metallic`, `smoothness`, `saveas`) and the three checkboxes
(`non-metallic`, `smooth`, `solid`). -/
structure FormValues where
  metallic : String
  nonMetallic : Bool
  smoothness : String
  smooth : Bool
  saveas : String
  solid : Bool

/-- How one call of `process` ends: a `return` (carrying the returned boolean,
the popup message shown, if any, and the file written, if any), or a crash by
an exception `process` does not catch. -/
inductive ProcessOutcome where
  | ret (ok : Bool) (popupMsg : Option String) (written : Option (String × RGBAImage))
  | crash

def USE_COLOR : Nat := 0

def USE_SOLID : Nat := 1

/-- The part of `process` after validation (lines 102-128): open the images,
fill a missing one, combine, and save after an overwrite check.  Both error
popups interpolate `e.filename`: for `FileNotFoundError` that attribute holds
the path, but PIL raises `UnidentifiedImageError` with only a message
argument, so there `e.filename` is `None` and the f-string at line 116
renders the literal text `"Not an image: None"`, whichever file was bad.
`choice` is the event returned by reading the overwrite-confirmation window:
the text of the clicked button (`"Yes"` or `"No"`), or `none` if the window
produced no event.  the Python test `if not choice` is true exactly for
`None` and `""`. -/
def processLoadSave (fs : FS) (choice : Option String)
    (metallic smoothness : String) (is_rough : Bool) (save_file : String) :
    ProcessOutcome :=
  match openImages fs metallic smoothness with
  | .error (.fileNotFound path) =>
    .ret false (some ("File not found: " ++ path)) none
  | .error (.unidentifiedImage _) =>
    .ret false (some "Not an image: None") none
  | .ok (metallic_img, smoothness_img) =>
    match fillMissing metallic_img smoothness_img with
    | none => .crash
    | some (metallic_img, smoothness_img) =>
      match combine metallic_img smoothness_img is_rough with
      | none => .crash
      | some image =>
        if (List.lookup save_file fs).isSome then
          if choice = none ∨ choice = some "" then .ret false none none
          else .ret true none (some (save_file, image))
        else .ret true none (some (save_file, image))

/-- `process` from `combiner.py` (lines 71-128): strip the three text inputs,
read the checkboxes, run the four validation checks (each showing a popup and
returning `False`), clear the metallic path under `non-metallic` and the
smoothness path under solid mode, then load, combine and save. -/
def process (fs : FS) (choice : Option String) (values : FormValues) :
    ProcessOutcome :=
  let metallic := values.metallic.strip
  let is_nonmetallic := values.nonMetallic
  let smoothness := values.smoothness.strip
  let is_rough := !values.smooth
  let save_file := values.saveas.strip
  let mode := if values.solid then USE_SOLID else USE_COLOR
  if save_file = "" then
    .ret false (some "You need to specify a save file!") none
  else if metallic = "" ∧ is_nonmetallic = false then
    .ret false (some "You need to specify a metallic file (or check Non-metallic)!") none
  else if mode = USE_COLOR ∧ smoothness = "" then
    .ret false (some "You need to specify a roughness/smoothness file!") none
  else if mode = USE_SOLID ∧ is_nonmetallic = true then
    .ret false (some ("You need to specify at least a metallic file or a " ++
      "roughness/smoothness file!")) none
  else
    let metallic := if is_nonmetallic then "" else metallic
    let smoothness := if mode = USE_SOLID then "" else smoothness
    processLoadSave fs choice metallic smoothness is_rough save_file

/-- The disjunction of the four validation-rejection conditions of `process`,
phrased on the stripped inputs (`solid = false` is exactly `mode = USE_COLOR`,
`solid = true` exactly `mode = USE_SOLID`). -/
def rejected (values : FormValues) : Prop :=
  values.saveas.strip = "" ∨
  (values.metallic.strip = "" ∧ values.nonMetallic = false) ∨
  (values.solid = false ∧ values.smoothness.strip = "") ∨
  (values.solid = true ∧ values.nonMetallic = true)

instance (values : FormValues) : Decidable (rejected values) := by
  unfold rejected; infer_instance

/-- The metallic path handed to the loader after validation: cleared when the
`non-metallic` checkbox is set (line 97-98), otherwise the stripped input. -/
def normMetallic (values : FormValues) : String :=
  if values.nonMetallic then "" else values.metallic.strip

/-- The smoothness path handed to the loader after validation: cleared in
solid mode (line 99-100), otherwise the stripped input. -/
def normSmoothness (values : FormValues) : String :=
  if values.solid then "" else values.smoothness.strip

/-- A run whose inputs trip one of the four validation checks returns `False`
after a popup, writing nothing. -/
theorem process_of_rejected (fs : FS) (choice : Option String)
    (values : FormValues) (h : rejected values) :
    ∃ msg, process fs choice values = .ret false (some msg) none := by
  unfold rejected at h
  cases hsolid : values.solid <;> cases hnm : values.nonMetallic <;>
    simp only [hsolid, hnm] at h <;>
    simp [process, hsolid, hnm, USE_COLOR, USE_SOLID] <;>
    split_ifs <;>
    first
      | exact ⟨_, rfl⟩
      | (exfalso; tauto)

/-- A run that passes all four validation checks continues with the loading,
combining and saving steps, on the normalized paths. -/
theorem process_of_valid (fs : FS) (choice : Option String)
    (values : FormValues) (h : ¬ rejected values) :
    process fs choice values =
      processLoadSave fs choice (normMetallic values) (normSmoothness values)
        (!values.smooth) values.saveas.strip := by
  unfold rejected at h
  push_neg at h
  obtain ⟨h1, h2, h3, h4⟩ := h
  cases hsolid : values.solid <;> cases hnm : values.nonMetallic <;>
    simp only [hsolid, hnm, ne_eq] at h2 h3 h4 <;>
    simp [process, normMetallic, normSmoothness, hsolid, hnm, USE_COLOR, USE_SOLID] <;>
    split_ifs <;>
    first
      | rfl
      | (exfalso; tauto)

/-- A 2x2 grayscale image whose every pixel is 64. -/
def gray64 : Channel :=
  { width := 2, height := 2, pix := fun _ _ => 64,
    pix_lt := fun _ _ => by show 64 < 256; decide }

/-- A 2x2 grayscale image whose every pixel is 200. -/
def gray200 : Channel :=
  { width := 2, height := 2, pix := fun _ _ => 200,
    pix_lt := fun _ _ => by show 200 < 256; decide }

/-- Whether an outcome wrote a file. -/
def outcomeWrote : ProcessOutcome → Bool :=
  fun o => match o with | .ret _ _ (some _) => true | _ => false

/-- The boolean a returning run of `process` gives back, `none` on a crash. -/
def outcomeOk : ProcessOutcome → Option Bool :=
  fun o => match o with | .ret ok _ _ => some ok | .crash => none

/-- The popup message an outcome showed, if any. -/
def outcomeMsg : ProcessOutcome → Option String :=
  fun o => match o with | .ret _ msg _ => msg | .crash => none

/-- The (R,G,B,A) tuple the outcome wrote at one pixel, if it wrote a file. -/
def writtenPixAt (o : ProcessOutcome) (x y : Nat) : Option (Nat × Nat × Nat × Nat) :=
  match o with
  | .ret _ _ (some (_, img)) => some (img.pix x y)
  | _ => none

/-- C4: validation in `process` rejects — returning `False` after a
user-facing popup, without crashing and without touching the destination —
exactly when, after stripping: the destination path is empty; or the metallic
path is empty and `non-metallic` is unchecked; or the fill mode is color and
the smoothness path is empty; or the fill mode is solid and `non-metallic` is
checked.  Otherwise validation passes and the loading stage proceeds on the
normalized paths. -/
theorem process_validation_exact (fs : FS) (choice : Option String)
    (values : FormValues) :
    (rejected values →
      ∃ msg, process fs choice values = .ret false (some msg) none) ∧
    (¬ rejected values →
      process fs choice values =
        processLoadSave fs choice (normMetallic values) (normSmoothness values)
          (!values.smooth) values.saveas.strip) :=
  ⟨process_of_rejected fs choice values, process_of_valid fs choice values⟩

/-- Witness for C4 at a concrete rejected input (whitespace-only destination
path). -/
theorem process_validation_exact_witness :
    ∃ msg, process ([] : FS) none
        { metallic := "m.png", nonMetallic := false, smoothness := "s.png",
          smooth := false, saveas := "  ", solid := false } =
      .ret false (some msg) none :=
  (process_validation_exact ([] : FS) none
    { metallic := "m.png", nonMetallic := false, smoothness := "s.png",
      smooth := false, saveas := "  ", solid := false }).1 (by decide)

/-- A filesystem in which the metallic source exists and the destination
`out.png` already exists. -/
def fsOverwrite : FS :=
  [("m.png", FileContent.image gray64), ("out.png", FileContent.notImage)]

/-- Form values naming that metallic file and the existing destination, under
solid fill, with every checkbox otherwise at its default. -/
def valuesOverwrite : FormValues :=
  { metallic := "m.png", nonMetallic := false, smoothness := "", smooth := false,
    saveas := "out.png", solid := true }

/-- C2 exposure: the destination already exists (first conjunct), the
overwrite prompt is answered with the No button — `sg.Window(...).read`
returns the text of the clicked button, `"No"`, a truthy string, so the
`if not choice` guard does not fire — and `process` nevertheless writes the
destination, returns `True` and shows no message, instead of aborting with
`False` and leaving the file unchanged. -/
theorem process_overwrite_deny_bug :
    (List.lookup valuesOverwrite.saveas.strip fsOverwrite).isSome = true ∧
    outcomeWrote (process fsOverwrite (some "No") valuesOverwrite) = true ∧
    outcomeOk (process fsOverwrite (some "No") valuesOverwrite) = some true ∧
    outcomeMsg (process fsOverwrite (some "No") valuesOverwrite) = none :=
  ⟨rfl, rfl, rfl, rfl⟩

/-- The filesystem for the solid-fill scenario: only the 2x2 all-64 metallic
image exists; the destination does not. -/
def fsSolid : FS := [("m64.png", FileContent.image gray64)]

/-- Solid-fill form values with the smoothness path omitted and the
Smoothness checkbox at its unchecked default. -/
def valuesSolidRough : FormValues :=
  { metallic := "m64.png", nonMetallic := false, smoothness := "", smooth := false,
    saveas := "out.png", solid := true }

/-- C3 counterexample: smoothness omitted under solid fill, metallic 2x2
all-64, and the Smoothness checkbox unchecked (its default value, one of the
"other options" the claim quantifies over): the run writes pixel
(64, 0, 0, 0) — `combine` re-inverts the all-255 fill — so the alpha channel
is 0, not 255. -/
theorem solid_fill_alpha_not_always_255 :
    writtenPixAt (process fsSolid none valuesSolidRough) 0 0 = some (64, 0, 0, 0) ∧
    writtenPixAt (process fsSolid none valuesSolidRough) 0 0 ≠ some (64, 0, 0, 255) :=
  ⟨rfl, by decide⟩

/-- C3 amended: with the smoothness input omitted under solid fill, a present
metallic image, and the Smoothness checkbox checked (so the all-255 fill is
not inverted again), the run writes a texture with red equal to the metallic
value and alpha 255 at every pixel, for any filesystem and overwrite answer. -/
theorem process_solid_fill_smooth (fs : FS) (choice : Option String)
    (values : FormValues) (m : Channel)
    (hsolid : values.solid = true) (hsmooth : values.smooth = true)
    (hnm : values.nonMetallic = false)
    (hsave : values.saveas.strip ≠ "") (hmetne : values.metallic.strip ≠ "")
    (hmet : List.lookup values.metallic.strip fs = some (.image m))
    (hdest : List.lookup values.saveas.strip fs = none) :
    ∃ img, process fs choice values = .ret true none (some (values.saveas.strip, img)) ∧
      img.width = m.width ∧ img.height = m.height ∧
      ∀ x y, img.pix x y = (m.pix x y, 0, 0, 255) := by
  have hval : ¬ rejected values := by
    unfold rejected
    simp [hsolid, hnm, hsave, hmetne]
  rw [process_of_valid fs choice values hval]
  simp [processLoadSave, openImages, openImage, normMetallic, normSmoothness,
    hnm, hsolid, hsmooth, hmetne, hmet, hdest, Except.map, fillMissing, combine,
    Image.getchannelL, ImageOps.grayscale, ImageOps.invert, Image.merge, Image.new]

/-- Solid-fill form values with the smoothness path omitted and the
Smoothness checkbox checked. -/
def valuesSolidSmooth : FormValues :=
  { metallic := "m64.png", nonMetallic := false, smoothness := "", smooth := true,
    saveas := "out.png", solid := true }

/-- Witness for the amended C3 at a concrete input. -/
theorem process_solid_fill_smooth_witness :
    ∃ img, process fsSolid none valuesSolidSmooth =
        .ret true none (some (valuesSolidSmooth.saveas.strip, img)) ∧
      img.width = gray64.width ∧ img.height = gray64.height ∧
      ∀ x y, img.pix x y = (gray64.pix x y, 0, 0, 255) :=
  process_solid_fill_smooth fsSolid none valuesSolidSmooth gray64 rfl rfl rfl
    (by decide) (by decide) rfl rfl

/-- The filesystem for the missing-metallic scenario: only the smoothness
source exists. -/
def fsMissing : FS := [("s.png", FileContent.image gray64)]

/-- Form values naming a nonexistent metallic file. -/
def valuesMissing : FormValues :=
  { metallic := "missing.png", nonMetallic := false, smoothness := "s.png",
    smooth := false, saveas := "out.png", solid := false }

/-- The filesystem for the undecodable-smoothness scenario: the metallic
source is a valid image, `bad.png` exists but does not decode as an image. -/
def fsBadImage : FS :=
  [("m.png", FileContent.image gray64), ("bad.png", FileContent.notImage)]

/-- Form values naming the valid metallic file and the undecodable
smoothness file, in color fill mode. -/
def valuesBadImage : FormValues :=
  { metallic := "m.png", nonMetallic := false, smoothness := "bad.png",
    smooth := false, saveas := "out.png", solid := false }

/-- C5 exposure: a nonexistent metallic path fails the run with
"File not found: missing.png", naming the path as claimed, but an existing
smoothness file that does not decode as an image fails it with the popup
"Not an image: None" — PIL raises `UnidentifiedImageError` with only a
message argument, so the `e.filename` the f-string at line 116 interpolates
is `None`, and the message does not name the offending path (last conjunct).
Both runs return `False` and write nothing. -/
theorem open_failure_messages :
    process fsMissing none valuesMissing =
      .ret false (some ("File not found: " ++ valuesMissing.metallic.strip)) none ∧
    process fsBadImage none valuesBadImage =
      .ret false (some "Not an image: None") none ∧
    (some "Not an image: None" : Option String) ≠
      some ("Not an image: " ++ valuesBadImage.smoothness.strip) :=
  ⟨rfl, rfl, by decide⟩

/-- C6: when exactly one image is missing, the fill step substitutes a
placeholder sized to the present image: an all-zero channel for a missing
metallic image and an all-255 channel for a missing smoothness image, the
present image passing through unchanged. -/
theorem fill_placeholder (m s : Channel) (x y : Nat) :
    (fillMissing none (some s) = some (Image.new s.width s.height, s) ∧
      (Image.new s.width s.height).width = s.width ∧
      (Image.new s.width s.height).height = s.height ∧
      (Image.new s.width s.height).pix x y = 0) ∧
    (fillMissing (some m) none =
        some (m, ImageOps.invert (Image.new m.width m.height)) ∧
      (ImageOps.invert (Image.new m.width m.height)).width = m.width ∧
      (ImageOps.invert (Image.new m.width m.height)).height = m.height ∧
      (ImageOps.invert (Image.new m.width m.height)).pix x y = 255) :=
  ⟨⟨rfl, rfl, rfl, rfl⟩, ⟨rfl, rfl, rfl, rfl⟩⟩

/-- When the metallic path is non-empty, a successful `openImages` carries a
metallic image. -/
theorem openImages_ok_left (fs : FS) (a b : String) (m s : Option Channel)
    (ha : a ≠ "") (h : openImages fs a b = .ok (m, s)) : m.isSome = true := by
  unfold openImages at h
  rw [if_neg ha] at h
  cases hop : openImage fs a with
  | error e => rw [hop] at h; simp [Except.map] at h
  | ok v =>
    rw [hop] at h
    simp only [Except.map] at h
    split at h
    · exact absurd h (by simp)
    · simp only [Except.ok.injEq, Prod.mk.injEq] at h
      rw [← h.1]
      rfl

/-- When the smoothness path is non-empty, a successful `openImages` carries a
smoothness image. -/
theorem openImages_ok_right (fs : FS) (a b : String) (m s : Option Channel)
    (hb : b ≠ "") (h : openImages fs a b = .ok (m, s)) : s.isSome = true := by
  unfold openImages at h
  split at h
  · exact absurd h (by simp)
  · rw [if_neg hb] at h
    cases hop : openImage fs b with
    | error e => rw [hop] at h; simp [Except.map] at h
    | ok v =>
      rw [hop] at h
      simp only [Except.map, Except.ok.injEq, Prod.mk.injEq] at h
      rw [← h.2]
      rfl

/-- C7: once validation has passed, the two normalized paths are never both
empty, so a successful load yields at least one image and the fill step never
dereferences a missing image: its `none` (AttributeError) exit is
unreachable. -/
theorem fill_never_crashes (fs : FS) (values : FormValues)
    (hval : ¬ rejected values) (m s : Option Channel)
    (hopen : openImages fs (normMetallic values) (normSmoothness values) =
      .ok (m, s)) :
    fillMissing m s ≠ none := by
  have hnotboth : normMetallic values ≠ "" ∨ normSmoothness values ≠ "" := by
    unfold rejected at hval
    push_neg at hval
    obtain ⟨h1, h2, h3, h4⟩ := hval
    cases hnm : values.nonMetallic with
    | false =>
      left
      simp only [normMetallic, hnm]
      simp only [Bool.false_eq_true, if_false]
      exact fun hmet => (h2 hmet) hnm
    | true =>
      right
      have hsolid : values.solid = false := by
        cases hs : values.solid
        · rfl
        · exact absurd hnm (h4 hs)
      simp only [normSmoothness, hsolid]
      simp only [Bool.false_eq_true, if_false]
      exact h3 hsolid
  rcases hnotboth with hA | hB
  · have hm := openImages_ok_left fs _ _ m s hA hopen
    cases m with
    | none => simp at hm
    | some mv => cases s <;> simp [fillMissing]
  · have hs := openImages_ok_right fs _ _ m s hB hopen
    cases s with
    | none => simp at hs
    | some sv => cases m <;> simp [fillMissing]

/-- Witness for C7 at a concrete input. -/
theorem fill_never_crashes_witness :
    fillMissing (some gray64) none ≠ none :=
  fill_never_crashes fsSolid valuesSolidRough (by decide) (some gray64) none rfl

/-- C9: the three text inputs are stripped before any validation, so a run
whose metallic, smoothness and destination fields are all whitespace-only is
indistinguishable from one whose fields are empty, whatever the checkboxes,
the filesystem and the overwrite answer. -/
theorem strip_text_inputs (fs : FS) (choice : Option String)
    (values : FormValues) (w : String) (hw : w.strip = "") :
    (process fs choice { values with metallic := w } =
      process fs choice { values with metallic := "" }) ∧
    (process fs choice { values with smoothness := w } =
      process fs choice { values with smoothness := "" }) ∧
    (process fs choice { values with saveas := w } =
      process fs choice { values with saveas := "" }) := by
  have h0 : ("" : String).strip = "" := rfl
  refine ⟨?_, ?_, ?_⟩ <;> simp [process, h0, hw]

/-- Witness for C9 at a concrete whitespace-only input. -/
theorem strip_text_inputs_witness :
    (process fsSolid none { valuesSolidRough with metallic := " " } =
      process fsSolid none { valuesSolidRough with metallic := "" }) ∧
    (process fsSolid none { valuesSolidRough with smoothness := " " } =
      process fsSolid none { valuesSolidRough with smoothness := "" }) ∧
    (process fsSolid none { valuesSolidRough with saveas := " " } =
      process fsSolid none { valuesSolidRough with saveas := "" }) :=
  strip_text_inputs fsSolid none valuesSolidRough " " (by decide)

/-- C10: the inversion flag handed to `combine` is the negation of the
Smoothness checkbox: on a successful two-image run the written alpha channel
is the second image inverted when the checkbox is unchecked and the second
image unchanged when it is checked. -/
theorem rough_is_not_smooth (fs : FS) (choice : Option String)
    (values : FormValues) (m s : Channel) (hval : ¬ rejected values)
    (hopen : openImages fs (normMetallic values) (normSmoothness values) =
      .ok (some m, some s))
    (hw : m.width = s.width) (hh : m.height = s.height)
    (hdest : List.lookup values.saveas.strip fs = none) :
    ∃ img, process fs choice values =
        .ret true none (some (values.saveas.strip, img)) ∧
      ∀ x y, (img.pix x y).2.2.2 =
        if values.smooth then s.pix x y else 255 - s.pix x y := by
  rw [process_of_valid fs choice values hval]
  cases hsm : values.smooth with
  | false =>
    refine ⟨{ width := m.width, height := m.height,
              pix := fun x y => (m.pix x y, 0, 0, 255 - s.pix x y) }, ?_, ?_⟩
    · simp [processLoadSave, hopen, fillMissing, combine, Image.getchannelL,
        ImageOps.grayscale, ImageOps.invert, Image.merge, Image.new, hw, hh, hdest]
    · intro x y
      simp
  | true =>
    refine ⟨{ width := m.width, height := m.height,
              pix := fun x y => (m.pix x y, 0, 0, s.pix x y) }, ?_, ?_⟩
    · simp [processLoadSave, hopen, fillMissing, combine, Image.getchannelL,
        ImageOps.grayscale, ImageOps.invert, Image.merge, Image.new, hw, hh, hdest]
    · intro x y
      simp

/-- The filesystem for the two-image scenario. -/
def fsTwo : FS :=
  [("m.png", FileContent.image gray64), ("s.png", FileContent.image gray200)]

/-- Form values naming both images, in color fill mode, Smoothness unchecked. -/
def valuesTwo : FormValues :=
  { metallic := "m.png", nonMetallic := false, smoothness := "s.png",
    smooth := false, saveas := "out.png", solid := false }

/-- Witness for C10 at a concrete input. -/
theorem rough_is_not_smooth_witness :
    ∃ img, process fsTwo none valuesTwo =
        .ret true none (some (valuesTwo.saveas.strip, img)) ∧
      ∀ x y, (img.pix x y).2.2.2 =
        if valuesTwo.smooth then gray200.pix x y else 255 - gray200.pix x y :=
  rough_is_not_smooth fsTwo none valuesTwo gray64 gray200 (by decide) rfl rfl rfl
    rfl

/-- C8: per-pixel inversion is self-inverse: `invert (invert S) = S` for every
8-bit channel `S`. -/
theorem invert_invert (c : Channel) :
    ImageOps.invert (ImageOps.invert c) = c := by
  cases c with
  | mk w h p hp =>
    simp only [ImageOps.invert, Channel.mk.injEq, true_and]
    funext x y
    have := hp x y
    omega
